import Mathlib

/-!
# Verification development for the pod fleet tooling (kubeutils, tui)

A shallow embedding of `kubeutils/functions.go` and of the review-setup key
handler of `tui/confirm_config_view.go`, followed by the properties proved
about them.

Conventions of the embedding.

* Go `string` is `String`; Go `int` (keepAliveSec) is `Int`.
* A Go `error` value is a `GoError`; a nil error is `none`.
* Calls into the cluster (Create, Get, DoRaw, the SPDY executor) are inputs of
  the model: every outcome the client library can hand back is a possible
  value of the corresponding field of the environment.
* Time is a natural number of seconds counted from the moment
  `context.WithTimeout` is called in `createPod`; it advances only by
  `time.Sleep`.
-/

namespace Kubeutils

/-! ## Errors -/

/-- Go error values: an error handed back by a library call, the value built by
`errors.New`, and the value built by `fmt.Errorf` with a `%w` verb. -/
inductive GoError where
  | transport (msg : String)
  | errorString (msg : String)
  | wrapError (msg : String) (err : GoError)
  deriving DecidableEq, Repr

/-- The method `Error()` of an error value. -/
def GoError.Error : GoError → String
  | .transport msg => msg
  | .errorString msg => msg
  | .wrapError msg _ => msg

/-- The method `Unwrap()`: only the value built with `%w` has one. -/
def GoError.Unwrap : GoError → Option GoError
  | .wrapError _ err => some err
  | _ => none

/-- Constructor `errors.New`. -/
def errors_New (text : String) : GoError := .errorString text

/-! ## The slice of the Kubernetes object model the code touches -/

/-- Type `v1.PodPhase` is a string type. -/
abbrev PodPhase := String

/-- Constant `v1.PodRunning`. -/
def PodRunning : PodPhase := "Running"

/-- Constant `core.RestartPolicyNever`. -/
def RestartPolicyNever : String := "Never"

/-- Constant `core.PullIfNotPresent`. -/
def PullIfNotPresent : String := "IfNotPresent"

structure ObjectMeta where
  Name : String
  Namespace : String
  Labels : List (String × String)
  deriving DecidableEq, Repr

structure Container where
  Name : String
  Image : String
  ImagePullPolicy : String
  Command : List String
  deriving DecidableEq, Repr

structure PodSpec where
  RestartPolicy : String
  Containers : List Container
  deriving DecidableEq, Repr

structure ContainerStatus where
  Name : String
  Ready : Bool
  deriving DecidableEq, Repr

structure PodStatus where
  Phase : PodPhase
  ContainerStatuses : List ContainerStatus
  deriving DecidableEq, Repr

structure Pod where
  ObjectMeta : ObjectMeta
  Spec : PodSpec
  Status : PodStatus
  deriving DecidableEq, Repr

/-- Field promotion of the embedded `ObjectMeta`: `pod.Name`. -/
def Pod.Name (p : Pod) : String := p.ObjectMeta.Name

/-- Field promotion of the embedded `ObjectMeta`: `pod.Namespace`. -/
def Pod.Namespace (p : Pod) : String := p.ObjectMeta.Namespace

/-! ## getPodObject -/

/-- Function `strconv.Itoa`: the decimal representation of a Go int. -/
def strconv_Itoa (i : Int) : String :=
  if i < 0 then "-" ++ Nat.repr i.natAbs else Nat.repr i.toNat

/-- Function `getPodObject` (functions.go, lines 133-158). The status of a
freshly built object is the zero value. -/
def getPodObject (namespace_ podName : String) (keepAliveSec : Int) : Pod :=
  { ObjectMeta :=
      { Name := podName
        Namespace := namespace_
        Labels := [("app", "jmeter_pod")] }
    Spec :=
      { RestartPolicy := RestartPolicyNever
        Containers :=
          [ { Name := podName
              Image := "ubuntu:22.04"
              ImagePullPolicy := PullIfNotPresent
              Command := ["sleep", strconv_Itoa keepAliveSec] } ] }
    Status := { Phase := "", ContainerStatuses := [] } }

/-! ## createPod -/

/-- Outcome of one `Pods(namespace).Get` call. -/
inductive FetchOutcome where
  | err (e : GoError)
  | ok (status : Pod)
  deriving DecidableEq, Repr

/-- The cluster as `createPod` sees it. `create` answers the Create call for a
namespace and a pod definition; `get namespace name i` answers the Get call
number `i` (counted from 0) of the poll; `parentDone t` tells whether the
context handed to `createPod` is already done at second `t`. -/
structure ClusterEnv where
  create : String → Pod → Except GoError Pod
  get : String → String → Nat → FetchOutcome
  parentDone : Nat → Bool

/-- Duration given to `context.WithTimeout`, in seconds. -/
def timeout : Nat := 30

/-- Duration given to `time.Sleep` after an unsuccessful poll, in seconds. -/
def pollInterval : Nat := 3

/-- What the poll has done so far: the clock, the number of Get calls issued
and the messages passed to `slog.Error`. -/
structure PollState where
  clock : Nat
  fetches : Nat
  logged : List String
  deriving DecidableEq, Repr

/-- The two values `createPod` returns, with the trace of the poll. -/
structure CreatePodResult where
  pod : Option Pod
  err : Option GoError
  trace : PollState
  deriving DecidableEq, Repr

/-- Channel `onlineCtx.Done()` is readable: the parent context is done or the
timeout has elapsed. -/
def onlineCtxDone (parentDone : Nat → Bool) (clock : Nat) : Bool :=
  parentDone clock || decide (timeout ≤ clock)

/-- The test of lines 120-124: `slices.ContainsFunc` over the container statuses
and the comparison of the phase. -/
def readyCheck (status : Pod) : Bool :=
  let hasNotReadyContainers :=
    status.Status.ContainerStatuses.any (fun c => c.Ready == false)
  !hasNotReadyContainers && status.Status.Phase == PodRunning

/-- The `for` loop of `createPod` (lines 108-130). -/
def pollLoop (parentDone : Nat → Bool) (fetch : Nat → FetchOutcome)
    (st : PollState) : CreatePodResult :=
  if onlineCtxDone parentDone st.clock = true then
    { pod := none, err := some (errors_New "cancelled"), trace := st }
  else
    match fetch st.fetches with
    | .err e =>
      pollLoop parentDone fetch
        { clock := st.clock + pollInterval
          fetches := st.fetches + 1
          logged := st.logged ++ [e.Error] }
    | .ok status =>
      if readyCheck status then
        { pod := some status, err := none
          trace := { st with fetches := st.fetches + 1 } }
      else
        pollLoop parentDone fetch
          { clock := st.clock + pollInterval
            fetches := st.fetches + 1
            logged := st.logged }
termination_by timeout - st.clock
decreasing_by
  all_goals
    rename_i h
    simp only [onlineCtxDone, Bool.or_eq_true, decide_eq_true_eq, not_or, not_le] at h
    simp only [pollInterval]
    omega

/-- Function `createPod` (lines 99-131). -/
def createPod (env : ClusterEnv) (namespace_ podName : String)
    (keepAliveSec : Int) : CreatePodResult :=
  let podDefinition := getPodObject namespace_ podName keepAliveSec
  match env.create namespace_ podDefinition with
  | .error err =>
    { pod := none, err := some err, trace := { clock := 0, fetches := 0, logged := [] } }
  | .ok pod =>
    pollLoop env.parentDone (env.get namespace_ pod.Name)
      { clock := 0, fetches := 0, logged := [] }

/-! ## checkClusterConnection -/

/-- Function `checkClusterConnection` (lines 84-97). The argument answers
`Get().AbsPath(path).DoRaw(ctx)`: the payload, or the error (the code does not
look at the payload when the error is non-nil). -/
def checkClusterConnection (doRaw : String → Except GoError String) :
    Bool × Option GoError :=
  let path := "/healthz"
  match doRaw path with
  | .error err =>
    (false, some (errors_New ("failed to connect to cluster. Reason: " ++ err.Error)))
  | .ok content =>
    let contentStr := content
    if contentStr != "ok" then
      (false, some (errors_New "cluster not healthy"))
    else
      (true, none)

/-! ## executeRemoteCommand -/

/-- Type `v1.PodExecOptions`. -/
structure PodExecOptions where
  Command : List String
  Container : String
  Stdin : Bool
  Stdout : Bool
  Stderr : Bool
  TTY : Bool
  deriving DecidableEq, Repr

/-- Function `IsValidPathSegmentName` of the request builder, as a test: a path
segment may not be "." or ".." and may contain neither a slash nor a percent
sign. -/
def IsValidPathSegmentName (name : String) : Bool :=
  !(name == "." || name == ".." || name.data.contains '/' || name.data.contains '%')

/-- Type `rest.Request` of client-go, with the fields the builder calls of lines
27-40 set. Field `err` tells whether the builder has recorded an error; its text
is never read, since the code only asks the request for its URL. Field `params`
holds the exec options that `VersionedParams` encodes into the query. -/
structure Request where
  verb : String
  namespaceSet : Bool
  namespace_ : String
  resource : String
  resourceName : String
  subresource : String
  params : Option PodExecOptions
  err : Bool
  deriving DecidableEq, Repr

/-- Method `RESTClient().Post()`: a fresh request with the verb POST. -/
def RESTClient_Post : Request :=
  { verb := "POST", namespaceSet := false, namespace_ := "", resource := ""
    resourceName := "", subresource := "", params := none, err := false }

/-- Method `Request.Namespace`. -/
def Request.Namespace (r : Request) (ns : String) : Request :=
  if r.err then r
  else if r.namespaceSet then { r with err := true }
  else if !IsValidPathSegmentName ns then { r with err := true }
  else { r with namespaceSet := true, namespace_ := ns }

/-- Method `Request.Resource`. -/
def Request.Resource (r : Request) (resource : String) : Request :=
  if r.err then r
  else if r.resource ≠ "" then { r with err := true }
  else if !IsValidPathSegmentName resource then { r with err := true }
  else { r with resource := resource }

/-- Method `Request.Name`. -/
def Request.Name (r : Request) (resourceName : String) : Request :=
  if r.err then r
  else if resourceName = "" then { r with err := true }
  else if r.resourceName ≠ "" then { r with err := true }
  else if !IsValidPathSegmentName resourceName then { r with err := true }
  else { r with resourceName := resourceName }

/-- Method `Request.SubResource`, for one segment. -/
def Request.SubResource (r : Request) (subresource : String) : Request :=
  if r.err then r
  else if r.subresource ≠ "" then { r with err := true }
  else if !IsValidPathSegmentName subresource then { r with err := true }
  else { r with subresource := subresource }

/-- Method `Request.VersionedParams` with `scheme.ParameterCodec`, which encodes
every exec options value. -/
def Request.VersionedParams (r : Request) (obj : PodExecOptions) : Request :=
  if r.err then r else { r with params := some obj }

/-- Type `url.URL` as far as the request fills it: the path segments below the
prefix of the client, and the query, kept as the exec options it encodes. -/
structure URL where
  Path : List String
  RawQuery : Option PodExecOptions
  deriving DecidableEq, Repr

/-- Function `strings.ToLower` on the letters A to Z. -/
def strings_ToLower (s : String) : String :=
  String.mk (s.data.map Char.toLower)

/-- Method `Request.URL`: the segments that are set, joined in order; an error
recorded by the builder plays no part in it. -/
def Request.URL (r : Request) : URL :=
  let p : List String :=
    if r.namespaceSet && r.namespace_ ≠ "" then ["namespaces", r.namespace_] else []
  let p := if r.resource ≠ "" then p ++ [strings_ToLower r.resource] else p
  let p :=
    if r.resourceName ≠ "" ∨ r.subresource ≠ "" then
      p ++ [r.resourceName, r.subresource].filter (fun seg => seg ≠ "")
    else p
  { Path := p, RawQuery := r.params }

/-- Type `remotecommand.StreamOptions`: which streams are attached. -/
structure StreamOptions where
  Stdin : Bool
  Stdout : Bool
  Stderr : Bool
  Tty : Bool
  deriving DecidableEq, Repr

/-- The exec transport. `newSPDYExecutor method url` answers
`remotecommand.NewSPDYExecutor` (nil or an error); `stream method url options`
answers `StreamWithContext` of the executor built for that method and URL: what
has been written to the two buffers when the call ends, and its error. -/
structure ExecEnv where
  newSPDYExecutor : String → URL → Option GoError
  stream : String → URL → StreamOptions → String × String × Option GoError

/-- The request of lines 27-40. -/
def execRequest (pod : Pod) (command : String) : Request :=
  ((((RESTClient_Post.Namespace pod.Namespace).Resource "pods").Name
    pod.Name).SubResource "exec").VersionedParams
      { Command := ["/bin/sh", "-c", command]
        Container := pod.Name
        Stdin := false
        Stdout := true
        Stderr := true
        TTY := false }

/-- The stream options of lines 46-50: the two buffers, no stdin, no terminal. -/
def execStreamOptions : StreamOptions :=
  { Stdin := false, Stdout := true, Stderr := true, Tty := false }

/-- The call `fmt.Errorf("%w failed executing command %s on %v/%v", ...)` of
line 53. -/
def execFailure (err : GoError) (command : String) (pod : Pod) : GoError :=
  .wrapError
    (err.Error ++ " failed executing command " ++ command ++ " on " ++
      pod.Namespace ++ "/" ++ pod.Name)
    err

/-- Function `executeRemoteCommand` (lines 24-57). -/
def executeRemoteCommand (env : ExecEnv) (pod : Pod) (command : String) :
    String × String × Option GoError :=
  let request := execRequest pod command
  match env.newSPDYExecutor "POST" request.URL with
  | some err => ("", "", some err)
  | none =>
    match env.stream "POST" request.URL execStreamOptions with
    | (_, _, some err) => ("", "", some (execFailure err command pod))
    | (buf, errBuf, none) => (buf, errBuf, none)

end Kubeutils

namespace Tui

/-- Type `AppViewState` (types.go, lines 70-80). -/
inductive AppViewState where
  | Config | FilePick | PodsSetup | ReviewSetup | PreparePods | Run | Finish
  deriving DecidableEq, Repr

/-- Type `TestRunState` (types.go, lines 82-93). -/
inductive TestRunState where
  | NotStarted | StartConfirm | InProgress | Completed
  | CancelConfirm | Cancelled | ResetConfirm | Collected
  deriving DecidableEq, Repr

/-- The numeric value the `iota` block gives each run state. -/
def TestRunState.toNat : TestRunState → Nat
  | .NotStarted => 0 | .StartConfirm => 1 | .InProgress => 2 | .Completed => 3
  | .CancelConfirm => 4 | .Cancelled => 5 | .ResetConfirm => 6 | .Collected => 7

/-- Type `PodInfo` (types.go, lines 11-17). -/
structure PodInfo where
  id : Int
  name : String
  logs : String
  propsFilePath : String
  scenarioFilePath : String
  deriving DecidableEq, Repr

/-- Type `TestRunModel` (types.go, lines 33-48), without its widget fields
(viewport, paginator, form, table, spinner). -/
structure TestRunModel where
  runState : TestRunState
  namespace_ : String
  isTableView : Bool
  currentPod : Int
  showSpinner : Bool
  isConfirmed : Bool
  showConfirm : Bool
  prevRunState : Option TestRunState
  deriving DecidableEq, Repr

/-- A `tea.Msg`: a key message with the text its `String()` method gives, or a
message of another type. -/
inductive Msg where
  | KeyMsg (key : String)
  | other (tag : Nat)
  deriving DecidableEq, Repr

/-- A `tea.Cmd` as far as the handler builds it: `tea.Quit`, the tick of the
preparation spinner, a command handed back by a widget, nil, and `tea.Batch`. -/
inductive Cmd where
  | Quit
  | preparationSpinnerTick
  | widget (tag : Nat)
  | nil
  | Batch (cmds : List Cmd)
  deriving Repr

/-- Type `ConfirmationModel`, with the fields the handler reads and writes; `V`
is the viewport widget and `F` the confirmation form. -/
structure ConfirmationModel (V F : Type) where
  isConfirmed : Bool
  viewport : V
  confirmationForm : F

/-- Type `ConfiguratorModel` (types.go, lines 19-31) with the fields the
review-setup handler touches. -/
structure ConfiguratorModel (V F : Type) where
  currentView : AppViewState
  currentPod : Int
  pods : List PodInfo
  setupConfirmation : ConfirmationModel V F

/-- The widgets and the method the handler calls that live outside the two
files: the viewport position `int(ScrollPercent() * 100)`, the viewport and form
updates (the form update gives back a form when the type assertion to
`*huh.Form` holds), `GetBool` of the form, and the method `setupPods`. -/
structure Widgets (V F : Type) where
  viewPortPosition : V → Int
  viewportUpdate : V → Msg → V × Cmd
  formUpdate : F → Msg → Option F × Cmd
  formGetBool : F → String → Bool
  setupPods : ConfiguratorModel V F → ConfiguratorModel V F

/-- The two values the handler returns: the model and the command. -/
structure UpdateResult (V F : Type) where
  model : ConfiguratorModel V F
  cmd : Cmd

/-- Lines 36-52 of `handleConfirmationUpdate`: the part after the key switch. -/
def confirmationTail {V F : Type} (w : Widgets V F) (m : ConfiguratorModel V F)
    (msg : Msg) : UpdateResult V F :=
  let viewPortPosition := w.viewPortPosition m.setupConfirmation.viewport
  let (sc, fCmd) :=
    if viewPortPosition > 98 then
      match w.formUpdate m.setupConfirmation.confirmationForm msg with
      | (some f, fCmd) =>
        let sc := { m.setupConfirmation with confirmationForm := f }
        if w.formGetBool f "conf" then
          ({ sc with isConfirmed := true }, fCmd)
        else
          (sc, fCmd)
      | (none, fCmd) => (m.setupConfirmation, fCmd)
    else
      (m.setupConfirmation, Cmd.nil)
  let (vp, cmd) := w.viewportUpdate sc.viewport msg
  { model := { m with setupConfirmation := { sc with viewport := vp } }
    cmd := Cmd.Batch [cmd, fCmd] }

/-- Method `handleConfirmationUpdate` (confirm_config_view.go, lines 11-52). -/
def handleConfirmationUpdate {V F : Type} (w : Widgets V F)
    (m : ConfiguratorModel V F) (msg : Msg) : UpdateResult V F :=
  match msg with
  | .KeyMsg key =>
    if key = "ctrl+c" then
      { model := m, cmd := Cmd.Quit }
    else if key = "b" then
      confirmationTail w { m with currentView := AppViewState.PodsSetup } msg
    else if key = "ctrl+p" then
      { model := w.setupPods m, cmd := Cmd.preparationSpinnerTick }
    else if key = "c" then
      if m.setupConfirmation.isConfirmed then
        { model := w.setupPods m, cmd := Cmd.preparationSpinnerTick }
      else
        confirmationTail w m msg
    else
      confirmationTail w m msg
  | .other _ => confirmationTail w m msg

/-! ## The run state machine -/

/-- Modelled from the spec: the edges of the Run State Machine. The handler that
assigns `TestRunModel.runState` is not among the sources, which hold only the
declarations of `TestRunState` and `TestRunModel`. The edges are those the
design names: not-started to start-confirm, start-confirm to in-progress on
confirmation, in-progress to completed when dispatch ends, in-progress to
cancel-confirm on a cancel request, cancel-confirm to cancelled on
confirmation, reset-confirm back to not-started. The design does not say from
which states `ResetConfirm` and `Collected` are entered: `resetFrom` and
`collectFrom` give them. -/
def definedEdge (resetFrom collectFrom : TestRunState → Bool) :
    TestRunState → TestRunState → Bool
  | .NotStarted, .StartConfirm => true
  | .StartConfirm, .InProgress => true
  | .InProgress, .Completed => true
  | .InProgress, .CancelConfirm => true
  | .CancelConfirm, .Cancelled => true
  | .ResetConfirm, .NotStarted => true
  | s, .ResetConfirm => resetFrom s
  | s, .Collected => collectFrom s
  | _, _ => false

/-- Modelled from the spec: an attempted transition of the run (its handler is
not among the sources). The run state moves to the target along a defined edge;
any other attempt is rejected and leaves the model as it is. -/
def attemptTransition (resetFrom collectFrom : TestRunState → Bool)
    (m : TestRunModel) (target : TestRunState) : TestRunModel :=
  if definedEdge resetFrom collectFrom m.runState target then
    { m with runState := target }
  else
    m

/-- Modelled from the spec: a run of the machine, one attempted transition after
the other (the handler is not among the sources). -/
def runAttempts (resetFrom collectFrom : TestRunState → Bool)
    (m : TestRunModel) : List TestRunState → TestRunModel
  | [] => m
  | t :: ts =>
    runAttempts resetFrom collectFrom (attemptTransition resetFrom collectFrom m t) ts

end Tui

namespace Kubeutils

/-! ## Vocabulary of the statements -/

/-- A fetch outcome after which the loop sleeps and polls again. -/
def notReadyOutcome : FetchOutcome → Bool
  | .err _ => true
  | .ok status => !readyCheck status

/-- The readiness condition in the words of the design: the phase is Running and
every container status reports ready. -/
def AllReadyAndRunning (status : Pod) : Prop :=
  status.Status.Phase = PodRunning ∧
    ∀ c ∈ status.Status.ContainerStatuses, c.Ready = true

/-- The value of a decimal digit character, if it is one. -/
def digitValue (c : Char) : Option Nat :=
  if 48 ≤ c.toNat ∧ c.toNat ≤ 57 then some (c.toNat - 48) else none

/-- Reading digits from the left into an accumulator. -/
def readDigits (acc : Nat) : List Char → Option Nat
  | [] => some acc
  | c :: cs =>
    match digitValue c with
    | none => none
    | some d => readDigits (acc * 10 + d) cs

/-- A natural number written in decimal: at least one digit, and no leading
zero except in the numeral 0 itself. -/
def readNat : List Char → Option Nat
  | [] => none
  | c :: rest => if c = '0' ∧ rest ≠ [] then none else readDigits 0 (c :: rest)

/-- The integer a string denotes in decimal: the digits of a natural number, or
a minus sign followed by the digits of a positive one. Every integer has exactly
one such string. -/
def readDecimal (s : String) : Option Int :=
  match s.data with
  | [] => none
  | c :: rest =>
    if c = '-' then
      match readNat rest with
      | some n => if n = 0 then none else some (-(n : Int))
      | none => none
    else (readNat (c :: rest)).map Int.ofNat

/-- Two fetch sequences that differ only where one has a get-error and the other
a status that is not ready. -/
def ErrorsAsNotReady (fetch fetch2 : Nat → FetchOutcome) : Prop :=
  ∀ i, fetch2 i = fetch i ∨
    ((∃ e, fetch i = .err e) ∧ ∃ status, fetch2 i = .ok status ∧ readyCheck status = false)

/-! ## Sample clusters -/

/-- A fetched status that is Running with its container ready. -/
def readyPod : Pod :=
  { getPodObject "default" "worker-0" 60 with
    Status := { Phase := PodRunning, ContainerStatuses := [⟨"worker-0", true⟩] } }

/-- A fetched status that is still Pending, its container not ready. -/
def pendingPod : Pod :=
  { getPodObject "default" "worker-0" 60 with
    Status := { Phase := "Pending", ContainerStatuses := [⟨"worker-0", false⟩] } }

/-- A cluster whose first two Get calls fail and whose third gives a ready pod. -/
def flakyCluster : ClusterEnv :=
  { create := fun _ p => .ok p
    get := fun _ _ i =>
      if i < 2 then .err (.transport "etcdserver: request timed out") else .ok readyPod
    parentDone := fun _ => false }

/-- The same cluster with the two failed Get calls replaced by a pending status. -/
def slowCluster : ClusterEnv :=
  { create := fun _ p => .ok p
    get := fun _ _ i => if i < 2 then .ok pendingPod else .ok readyPod
    parentDone := fun _ => false }

/-- A cluster that accepts the pod and never reports it ready. -/
def stuckCluster : ClusterEnv :=
  { create := fun _ p => .ok p
    get := fun _ _ _ => .ok pendingPod
    parentDone := fun _ => false }

/-- A cluster that accepts the pod while the context handed to createPod is
already done. -/
def cancelledCluster : ClusterEnv :=
  { create := fun _ p => .ok p
    get := fun _ _ _ => .ok readyPod
    parentDone := fun _ => true }

/-- A cluster that refuses the create call. -/
def rejectingCluster : ClusterEnv :=
  { create := fun _ _ => .error (.transport "pods is forbidden")
    get := fun _ _ _ => .ok readyPod
    parentDone := fun _ => false }

/-- A health endpoint that cannot be reached. -/
def unreachableHealth : String → Except GoError String :=
  fun _ => .error (.transport "dial tcp 10.0.0.1:6443: connect: connection refused")

/-! ## Sample pods and exec transports -/

/-- A transport whose executor cannot be constructed. -/
def brokenExecutor : ExecEnv :=
  { newSPDYExecutor := fun _ _ => some (.transport "tls: failed to find any PEM data")
    stream := fun _ _ _ => ("", "", none) }

/-- A transport whose stream breaks. -/
def brokenStream : ExecEnv :=
  { newSPDYExecutor := fun _ _ => none
    stream := fun _ _ _ => ("", "", some (.transport "unable to upgrade connection")) }

end Kubeutils

namespace Tui

/-! ## A sample run and a sample review screen -/

/-- A run that has not started. -/
def freshRun : TestRunModel :=
  { runState := .NotStarted, namespace_ := "default", isTableView := false
    currentPod := 0, showSpinner := false, isConfirmed := false
    showConfirm := false, prevRunState := none }

/-- Widgets over a viewport that is its scroll position and a form that is its
answer; setupPods moves the application to the preparation view. -/
def sampleWidgets : Widgets Int Bool :=
  { viewPortPosition := fun v => v
    viewportUpdate := fun v _ => (v, Cmd.nil)
    formUpdate := fun f _ => (some f, Cmd.nil)
    formGetBool := fun f _ => f
    setupPods := fun m => { m with currentView := AppViewState.PreparePods } }

/-- The review screen, scrolled to the end, with the given confirmation. -/
def reviewScreen (isConfirmed : Bool) : ConfiguratorModel Int Bool :=
  { currentView := AppViewState.ReviewSetup
    currentPod := 0
    pods := []
    setupConfirmation :=
      { isConfirmed := isConfirmed, viewport := 100, confirmationForm := isConfirmed } }

end Tui

namespace Kubeutils

/-! ## Unfolding the poll loop -/

theorem readyCheck_iff (status : Pod) :
    readyCheck status = true ↔ AllReadyAndRunning status := by
  unfold readyCheck AllReadyAndRunning
  simp only [Bool.and_eq_true, Bool.not_eq_true', List.any_eq_false, beq_iff_eq,
    Bool.not_eq_false]
  constructor
  · rintro ⟨h1, h2⟩
    exact ⟨h2, h1⟩
  · rintro ⟨h1, h2⟩
    exact ⟨h2, h1⟩

theorem pollLoop_done (parentDone : Nat → Bool) (fetch : Nat → FetchOutcome)
    (st : PollState) (h : onlineCtxDone parentDone st.clock = true) :
    pollLoop parentDone fetch st =
      { pod := none, err := some (errors_New "cancelled"), trace := st } := by
  rw [pollLoop]
  simp [h]

theorem pollLoop_ready (parentDone : Nat → Bool) (fetch : Nat → FetchOutcome)
    (st : PollState) (status : Pod)
    (h : onlineCtxDone parentDone st.clock = false)
    (hf : fetch st.fetches = .ok status) (hr : readyCheck status = true) :
    pollLoop parentDone fetch st =
      { pod := some status, err := none
        trace := { st with fetches := st.fetches + 1 } } := by
  rw [pollLoop]
  simp [h, hf, hr]

theorem pollLoop_notReady (parentDone : Nat → Bool) (fetch : Nat → FetchOutcome)
    (st : PollState) (h : onlineCtxDone parentDone st.clock = false)
    (hf : notReadyOutcome (fetch st.fetches) = true) :
    ∃ logged, pollLoop parentDone fetch st =
      pollLoop parentDone fetch
        { clock := st.clock + pollInterval, fetches := st.fetches + 1, logged := logged } := by
  rw [pollLoop]
  cases hfe : fetch st.fetches with
  | err e => exact ⟨st.logged ++ [e.Error], by simp [h]⟩
  | ok status =>
    rw [hfe] at hf
    simp only [notReadyOutcome, Bool.not_eq_true'] at hf
    exact ⟨st.logged, by simp [h, hf]⟩

/-- Induction along the loop: a property holds of every poll state as soon as it
holds of a state whenever it holds of the states the loop can continue with. -/
theorem pollState_induction (parentDone : Nat → Bool) (P : PollState → Prop)
    (step : ∀ st : PollState,
      (onlineCtxDone parentDone st.clock = false →
        ∀ logged, P { clock := st.clock + pollInterval, fetches := st.fetches + 1,
                      logged := logged }) → P st) :
    ∀ st, P st := by
  intro st
  generalize hn : timeout - st.clock = n
  induction n using Nat.strong_induction_on generalizing st with
  | _ n ih =>
    apply step
    intro hlive logged
    have hlt : st.clock < timeout := by
      simp only [onlineCtxDone, Bool.or_eq_false_iff, decide_eq_false_iff_not, not_le] at hlive
      exact hlive.2
    apply ih (timeout - (st.clock + pollInterval)) _ _ rfl
    simp only [pollInterval]
    omega

end Kubeutils

namespace Kubeutils

/-- The loop ends in one of two ways: cancelled, or with the status of its last
fetch, which passed the readiness test. -/
theorem pollLoop_result (parentDone : Nat → Bool) (fetch : Nat → FetchOutcome) :
    ∀ st : PollState,
      ((pollLoop parentDone fetch st).pod = none ∧
        (pollLoop parentDone fetch st).err = some (errors_New "cancelled") ∧
        onlineCtxDone parentDone (pollLoop parentDone fetch st).trace.clock = true) ∨
      (∃ status, (pollLoop parentDone fetch st).pod = some status ∧
        (pollLoop parentDone fetch st).err = none ∧
        st.fetches + 1 ≤ (pollLoop parentDone fetch st).trace.fetches ∧
        fetch ((pollLoop parentDone fetch st).trace.fetches - 1) = .ok status ∧
        readyCheck status = true) := by
  apply pollState_induction parentDone
  intro st ih
  cases hd : onlineCtxDone parentDone st.clock with
  | true =>
    left
    rw [pollLoop_done parentDone fetch st hd]
    exact ⟨rfl, rfl, hd⟩
  | false =>
    cases hn : notReadyOutcome (fetch st.fetches) with
    | true =>
      obtain ⟨logged, hEq⟩ := pollLoop_notReady parentDone fetch st hd hn
      rw [hEq]
      rcases ih hd logged with h | ⟨status, h1, h2, h3, h4⟩
      · exact Or.inl h
      · exact Or.inr ⟨status, h1, h2, by simp only at h3; omega, h4⟩
    | false =>
      cases hfe : fetch st.fetches with
      | err e => rw [hfe] at hn; simp [notReadyOutcome] at hn
      | ok status =>
        rw [hfe] at hn
        simp only [notReadyOutcome, Bool.not_eq_false'] at hn
        right
        rw [pollLoop_ready parentDone fetch st status hd hfe hn]
        exact ⟨status, rfl, rfl, le_refl _, by simpa using hfe, hn⟩

/-- The clock never runs past the timeout by a full poll interval. -/
theorem pollLoop_clock_le (parentDone : Nat → Bool) (fetch : Nat → FetchOutcome) :
    ∀ st : PollState, st.clock ≤ timeout + pollInterval →
      (pollLoop parentDone fetch st).trace.clock ≤ timeout + pollInterval := by
  apply pollState_induction parentDone
  intro st ih hst
  cases hd : onlineCtxDone parentDone st.clock with
  | true =>
    rw [pollLoop_done parentDone fetch st hd]
    exact hst
  | false =>
    have hlt : st.clock < timeout := by
      simp only [onlineCtxDone, Bool.or_eq_false_iff, decide_eq_false_iff_not, not_le] at hd
      exact hd.2
    cases hn : notReadyOutcome (fetch st.fetches) with
    | true =>
      obtain ⟨logged, hEq⟩ := pollLoop_notReady parentDone fetch st hd hn
      rw [hEq]
      exact ih hd logged (by simp only; omega)
    | false =>
      cases hfe : fetch st.fetches with
      | err e => rw [hfe] at hn; simp [notReadyOutcome] at hn
      | ok status =>
        rw [hfe] at hn
        simp only [notReadyOutcome, Bool.not_eq_false'] at hn
        rw [pollLoop_ready parentDone fetch st status hd hfe hn]
        exact hst

/-- When no fetch is ready the loop ends cancelled. -/
theorem pollLoop_never_ready (parentDone : Nat → Bool) (fetch : Nat → FetchOutcome)
    (hnever : ∀ i, notReadyOutcome (fetch i) = true) :
    ∀ st : PollState,
      (pollLoop parentDone fetch st).pod = none ∧
      (pollLoop parentDone fetch st).err = some (errors_New "cancelled") := by
  intro st
  rcases pollLoop_result parentDone fetch st with h | ⟨status, _, _, _, h4, h5⟩
  · exact ⟨h.1, h.2.1⟩
  · have := hnever ((pollLoop parentDone fetch st).trace.fetches - 1)
    rw [h4] at this
    simp [notReadyOutcome, h5] at this

/-- The loop started at poll number `i` is where the loop started at 0 gets to
when the first `i` fetches are not ready and the context is not done at any of
the first `i` polls. -/
theorem pollLoop_skip (parentDone : Nat → Bool) (fetch : Nat → FetchOutcome) :
    ∀ i : Nat,
      (∀ j, j < i → notReadyOutcome (fetch j) = true) →
      (∀ j, j < i → onlineCtxDone parentDone (pollInterval * j) = false) →
      ∃ logged, pollLoop parentDone fetch { clock := 0, fetches := 0, logged := [] } =
        pollLoop parentDone fetch
          { clock := pollInterval * i, fetches := i, logged := logged } := by
  intro i
  induction i with
  | zero => intro _ _; exact ⟨[], rfl⟩
  | succ i ih =>
    intro hn hd
    obtain ⟨logged, hEq⟩ := ih (fun j hj => hn j (by omega)) (fun j hj => hd j (by omega))
    obtain ⟨logged2, hEq2⟩ := pollLoop_notReady parentDone fetch
      { clock := pollInterval * i, fetches := i, logged := logged }
      (hd i (by omega)) (hn i (by omega))
    refine ⟨logged2, ?_⟩
    rw [hEq, hEq2]
    simp only [Nat.mul_succ]

theorem pollLoop_errorsAsNotReady (parentDone : Nat → Bool)
    (fetch fetch2 : Nat → FetchOutcome) (hrel : ErrorsAsNotReady fetch fetch2) :
    ∀ st : PollState, ∀ logged2,
      (pollLoop parentDone fetch2 { st with logged := logged2 }).pod =
          (pollLoop parentDone fetch st).pod ∧
      (pollLoop parentDone fetch2 { st with logged := logged2 }).err =
          (pollLoop parentDone fetch st).err ∧
      (pollLoop parentDone fetch2 { st with logged := logged2 }).trace.clock =
          (pollLoop parentDone fetch st).trace.clock ∧
      (pollLoop parentDone fetch2 { st with logged := logged2 }).trace.fetches =
          (pollLoop parentDone fetch st).trace.fetches := by
  apply pollState_induction parentDone
  intro st ih logged2
  cases hd : onlineCtxDone parentDone st.clock with
  | true =>
    rw [pollLoop_done parentDone fetch st hd,
      pollLoop_done parentDone fetch2 { st with logged := logged2 } hd]
    exact ⟨rfl, rfl, rfl, rfl⟩
  | false =>
    cases hn : notReadyOutcome (fetch st.fetches) with
    | true =>
      have hn2 : notReadyOutcome (fetch2 st.fetches) = true := by
        rcases hrel st.fetches with h | ⟨_, status, h, hr⟩
        · rw [h]; exact hn
        · rw [h]; simp [notReadyOutcome, hr]
      obtain ⟨l1, hEq⟩ := pollLoop_notReady parentDone fetch st hd hn
      obtain ⟨l2, hEq2⟩ := pollLoop_notReady parentDone fetch2
        { st with logged := logged2 } hd hn2
      rw [hEq, hEq2]
      exact ih hd l1 l2
    | false =>
      cases hfe : fetch st.fetches with
      | err e => rw [hfe] at hn; simp [notReadyOutcome] at hn
      | ok status =>
        have hfe2 : fetch2 st.fetches = .ok status := by
          rcases hrel st.fetches with h | ⟨⟨e, he⟩, _⟩
          · rw [h]; exact hfe
          · rw [hfe] at he; cases he
        rw [hfe] at hn
        simp only [notReadyOutcome, Bool.not_eq_false'] at hn
        rw [pollLoop_ready parentDone fetch st status hd hfe hn,
          pollLoop_ready parentDone fetch2 { st with logged := logged2 } status hd hfe2 hn]
        exact ⟨rfl, rfl, rfl, rfl⟩

/-- The loop never forgets a fetch: the count only grows. -/
theorem pollLoop_fetches_le (parentDone : Nat → Bool) (fetch : Nat → FetchOutcome) :
    ∀ st : PollState, st.fetches ≤ (pollLoop parentDone fetch st).trace.fetches := by
  apply pollState_induction parentDone
  intro st ih
  cases hd : onlineCtxDone parentDone st.clock with
  | true =>
    rw [pollLoop_done parentDone fetch st hd]
  | false =>
    cases hn : notReadyOutcome (fetch st.fetches) with
    | true =>
      obtain ⟨logged, hEq⟩ := pollLoop_notReady parentDone fetch st hd hn
      rw [hEq]
      have := ih hd logged
      simp only at this
      omega
    | false =>
      cases hfe : fetch st.fetches with
      | err e => rw [hfe] at hn; simp [notReadyOutcome] at hn
      | ok status =>
        rw [hfe] at hn
        simp only [notReadyOutcome, Bool.not_eq_false'] at hn
        rw [pollLoop_ready parentDone fetch st status hd hfe hn]
        exact Nat.le_succ _

end Kubeutils

namespace Kubeutils

/-! ## createPod: the readiness poll -/

theorem notReadyOutcome_of_error_or_not_ready (o : FetchOutcome)
    (h : (∃ e, o = .err e) ∨
      ∃ status, o = .ok status ∧
        ¬ (status.Status.Phase = PodRunning ∧
          ∀ c ∈ status.Status.ContainerStatuses, c.Ready = true)) :
    notReadyOutcome o = true := by
  rcases h with ⟨e, rfl⟩ | ⟨status, rfl, hs⟩
  · rfl
  · have : ¬ readyCheck status = true := fun hr => hs ((readyCheck_iff status).1 hr)
    simpa [notReadyOutcome] using this

/-- C1. Take a Get call of the poll that createPod reaches (every earlier fetch
was an error or not ready, and the context was not done at any poll so far) and
that yields a status. The poll ends in success on that very fetch if and only if
the status phase is Running and every container status reports ready, and then
createPod returns exactly that status with a nil error. Whenever createPod
succeeds, what it returns is the status of its last fetch, and that status is
Running with every container ready. -/
theorem createPod_success_iff_ready (env : ClusterEnv) (namespace_ podName : String)
    (keepAliveSec : Int) (pod : Pod) (i : Nat) (status : Pod)
    (hcreate : env.create namespace_ (getPodObject namespace_ podName keepAliveSec) = .ok pod)
    (hbefore : ∀ j, j < i → notReadyOutcome (env.get namespace_ pod.Name j) = true)
    (hlive : ∀ j, j ≤ i → onlineCtxDone env.parentDone (pollInterval * j) = false)
    (hfetch : env.get namespace_ pod.Name i = .ok status) :
    (((createPod env namespace_ podName keepAliveSec).err = none ∧
        (createPod env namespace_ podName keepAliveSec).trace.fetches = i + 1) ↔
      (status.Status.Phase = PodRunning ∧
        ∀ c ∈ status.Status.ContainerStatuses, c.Ready = true)) ∧
    ((status.Status.Phase = PodRunning ∧
        ∀ c ∈ status.Status.ContainerStatuses, c.Ready = true) →
      (createPod env namespace_ podName keepAliveSec).pod = some status ∧
      (createPod env namespace_ podName keepAliveSec).err = none) ∧
    ((createPod env namespace_ podName keepAliveSec).err = none →
      ∃ last, (createPod env namespace_ podName keepAliveSec).pod = some last ∧
        env.get namespace_ pod.Name
          ((createPod env namespace_ podName keepAliveSec).trace.fetches - 1) = .ok last ∧
        last.Status.Phase = PodRunning ∧
        ∀ c ∈ last.Status.ContainerStatuses, c.Ready = true) := by
  have hcp : createPod env namespace_ podName keepAliveSec =
      pollLoop env.parentDone (env.get namespace_ pod.Name)
        { clock := 0, fetches := 0, logged := [] } := by
    simp only [createPod, hcreate]
  obtain ⟨logged, hskip⟩ := pollLoop_skip env.parentDone (env.get namespace_ pod.Name) i
    hbefore (fun j hj => hlive j (by omega))
  have hd := hlive i (le_refl i)
  refine ⟨?_, ?_, ?_⟩
  · rw [hcp, hskip]
    cases hr : readyCheck status with
    | true =>
      rw [pollLoop_ready env.parentDone _ _ status hd hfetch hr]
      exact iff_of_true ⟨rfl, rfl⟩ ((readyCheck_iff status).1 hr)
    | false =>
      have hnr : notReadyOutcome (env.get namespace_ pod.Name i) = true := by
        rw [hfetch]; simp [notReadyOutcome, hr]
      obtain ⟨logged2, hEq⟩ := pollLoop_notReady env.parentDone
        (env.get namespace_ pod.Name)
        { clock := pollInterval * i, fetches := i, logged := logged } hd hnr
      rw [hEq]
      constructor
      · rintro ⟨herr, hcount⟩
        rcases pollLoop_result env.parentDone (env.get namespace_ pod.Name)
          { clock := pollInterval * i + pollInterval, fetches := i + 1, logged := logged2 }
          with h | ⟨_, _, _, h3, _⟩
        · simp only at herr h
          rw [h.2.1] at herr; cases herr
        · simp only at h3 hcount; omega
      · intro hs
        have := (readyCheck_iff status).2 hs
        rw [hr] at this; cases this
  · intro hs
    have hr := (readyCheck_iff status).2 hs
    rw [hcp, hskip, pollLoop_ready env.parentDone _ _ status hd hfetch hr]
    exact ⟨rfl, rfl⟩
  · rw [hcp]
    intro herr
    rcases pollLoop_result env.parentDone (env.get namespace_ pod.Name)
      { clock := 0, fetches := 0, logged := [] } with h | ⟨last, h1, _, _, h4, h5⟩
    · rw [h.2.1] at herr; cases herr
    · exact ⟨last, h1, h4, (readyCheck_iff last).1 h5⟩

/-- Witness of C1: on the flaky cluster the third Get call (number 2) yields a
ready pod, the poll ends there, and createPod returns it, the status of its last
fetch. -/
theorem createPod_success_iff_ready_witness :
    (((createPod flakyCluster "default" "worker-0" 60).err = none ∧
        (createPod flakyCluster "default" "worker-0" 60).trace.fetches = 2 + 1) ↔
      (readyPod.Status.Phase = PodRunning ∧
        ∀ c ∈ readyPod.Status.ContainerStatuses, c.Ready = true)) ∧
    (createPod flakyCluster "default" "worker-0" 60).pod = some readyPod ∧
    ∃ last, (createPod flakyCluster "default" "worker-0" 60).pod = some last ∧
      flakyCluster.get "default" (getPodObject "default" "worker-0" 60).Name
        ((createPod flakyCluster "default" "worker-0" 60).trace.fetches - 1) = .ok last ∧
      last.Status.Phase = PodRunning ∧
      ∀ c ∈ last.Status.ContainerStatuses, c.Ready = true := by
  have h := createPod_success_iff_ready flakyCluster "default" "worker-0" 60
    (getPodObject "default" "worker-0" 60) 2 readyPod rfl
    (by intro j hj; simp [flakyCluster, hj, notReadyOutcome])
    (by
      intro j hj
      simp only [onlineCtxDone, flakyCluster, timeout, pollInterval, Bool.false_or,
        decide_eq_false_iff_not, not_le]
      omega)
    (by simp [flakyCluster])
  have hready : readyPod.Status.Phase = PodRunning ∧
      ∀ c ∈ readyPod.Status.ContainerStatuses, c.Ready = true := by
    simp [readyPod, PodRunning]
  exact ⟨h.1, (h.2.1 hready).1, h.2.2 (h.2.1 hready).2⟩

/-- C2. A failed status fetch counts exactly as a not-ready status. (1) If a
second cluster differs from the first only in that some Get calls that fail on
the first give a not-ready status on the second, createPod returns the same pod
and the same error on both, after the same number of fetches and at the same
time. (2) A ready status fetched while the context is not done, after any number
of failed fetches, makes createPod return that status with a nil error. (3) After
a successful create the error createPod returns is nil or the value built by
errors.New("cancelled"), never an error of a Get call. -/
theorem createPod_get_error_as_not_ready :
    (∀ (env env2 : ClusterEnv) (namespace_ podName : String) (keepAliveSec : Int),
      env2.create = env.create → env2.parentDone = env.parentDone →
      (∀ ns name, ErrorsAsNotReady (env.get ns name) (env2.get ns name)) →
      (createPod env2 namespace_ podName keepAliveSec).pod =
          (createPod env namespace_ podName keepAliveSec).pod ∧
      (createPod env2 namespace_ podName keepAliveSec).err =
          (createPod env namespace_ podName keepAliveSec).err ∧
      (createPod env2 namespace_ podName keepAliveSec).trace.clock =
          (createPod env namespace_ podName keepAliveSec).trace.clock ∧
      (createPod env2 namespace_ podName keepAliveSec).trace.fetches =
          (createPod env namespace_ podName keepAliveSec).trace.fetches) ∧
    (∀ (env : ClusterEnv) (namespace_ podName : String) (keepAliveSec : Int)
      (pod : Pod) (i : Nat) (status : Pod),
      env.create namespace_ (getPodObject namespace_ podName keepAliveSec) = .ok pod →
      (∀ j, j < i → ∃ e, env.get namespace_ pod.Name j = .err e) →
      (∀ j, j ≤ i → onlineCtxDone env.parentDone (pollInterval * j) = false) →
      env.get namespace_ pod.Name i = .ok status →
      (status.Status.Phase = PodRunning ∧
        ∀ c ∈ status.Status.ContainerStatuses, c.Ready = true) →
      (createPod env namespace_ podName keepAliveSec).pod = some status ∧
      (createPod env namespace_ podName keepAliveSec).err = none) ∧
    (∀ (env : ClusterEnv) (namespace_ podName : String) (keepAliveSec : Int) (pod : Pod),
      env.create namespace_ (getPodObject namespace_ podName keepAliveSec) = .ok pod →
      (createPod env namespace_ podName keepAliveSec).err = none ∨
      (createPod env namespace_ podName keepAliveSec).err =
        some (errors_New "cancelled")) := by
  refine ⟨?_, ?_, ?_⟩
  · intro env env2 namespace_ podName keepAliveSec hc hp hrel
    simp only [createPod, hc, hp]
    cases env.create namespace_ (getPodObject namespace_ podName keepAliveSec) with
    | error err => exact ⟨rfl, rfl, rfl, rfl⟩
    | ok pod =>
      exact pollLoop_errorsAsNotReady env.parentDone _ _ (hrel namespace_ pod.Name)
        { clock := 0, fetches := 0, logged := [] } []
  · intro env namespace_ podName keepAliveSec pod i status hcreate herrs hlive hfetch hs
    have hcp : createPod env namespace_ podName keepAliveSec =
        pollLoop env.parentDone (env.get namespace_ pod.Name)
          { clock := 0, fetches := 0, logged := [] } := by
      simp only [createPod, hcreate]
    obtain ⟨logged, hskip⟩ := pollLoop_skip env.parentDone (env.get namespace_ pod.Name) i
      (fun j hj => by obtain ⟨e, he⟩ := herrs j hj; rw [he]; rfl)
      (fun j hj => hlive j (by omega))
    rw [hcp, hskip, pollLoop_ready env.parentDone _ _ status (hlive i (le_refl i)) hfetch
      ((readyCheck_iff status).2 hs)]
    exact ⟨rfl, rfl⟩
  · intro env namespace_ podName keepAliveSec pod hcreate
    have hcp : createPod env namespace_ podName keepAliveSec =
        pollLoop env.parentDone (env.get namespace_ pod.Name)
          { clock := 0, fetches := 0, logged := [] } := by
      simp only [createPod, hcreate]
    rw [hcp]
    rcases pollLoop_result env.parentDone (env.get namespace_ pod.Name)
      { clock := 0, fetches := 0, logged := [] } with h | ⟨_, _, h2, _⟩
    · exact Or.inr h.2.1
    · exact Or.inl h2

/-- Witness of C2: the flaky cluster (two failed fetches, then a ready pod) and
the slow cluster (two pending statuses, then the same ready pod) give the same
result, which is the ready pod with a nil error. -/
theorem createPod_get_error_as_not_ready_witness :
    ((createPod slowCluster "default" "worker-0" 60).pod =
        (createPod flakyCluster "default" "worker-0" 60).pod ∧
      (createPod slowCluster "default" "worker-0" 60).err =
        (createPod flakyCluster "default" "worker-0" 60).err) ∧
    ((createPod flakyCluster "default" "worker-0" 60).pod = some readyPod ∧
      (createPod flakyCluster "default" "worker-0" 60).err = none) ∧
    ((createPod stuckCluster "default" "worker-0" 60).err = none ∨
      (createPod stuckCluster "default" "worker-0" 60).err =
        some (errors_New "cancelled")) := by
  have h := createPod_get_error_as_not_ready
  refine ⟨?_, ?_, ?_⟩
  · have h1 := h.1 flakyCluster slowCluster "default" "worker-0" 60 rfl rfl
      (by
        intro ns name i
        by_cases hi : i < 2
        · right
          simp [flakyCluster, slowCluster, hi, readyCheck, pendingPod]
        · left
          simp [flakyCluster, slowCluster, hi])
    exact ⟨h1.1, h1.2.1⟩
  · exact h.2.1 flakyCluster "default" "worker-0" 60
      (getPodObject "default" "worker-0" 60) 2 readyPod rfl
      (by intro j hj; simp [flakyCluster, hj])
      (by
        intro j hj
        simp only [onlineCtxDone, flakyCluster, timeout, pollInterval, Bool.false_or,
          decide_eq_false_iff_not, not_le]
        omega)
      (by simp [flakyCluster])
      (by simp [readyPod, PodRunning])
  · exact h.2.2 stuckCluster "default" "worker-0" 60
      (getPodObject "default" "worker-0" 60) rfl

/-- C3. When no fetch of the poll is ready (each Get call fails or yields a
status that is not Running with every container ready), createPod returns a nil
pod and the error built by errors.New("cancelled"), and the clock of the model,
which advances only by the 3-second sleep after an unsuccessful poll, then reads
at most timeout + pollInterval = 33 seconds. -/
theorem createPod_never_ready_cancelled (env : ClusterEnv) (namespace_ podName : String)
    (keepAliveSec : Int) (pod : Pod)
    (hcreate : env.create namespace_ (getPodObject namespace_ podName keepAliveSec) = .ok pod)
    (hnever : ∀ i, (∃ e, env.get namespace_ pod.Name i = .err e) ∨
      ∃ status, env.get namespace_ pod.Name i = .ok status ∧
        ¬ (status.Status.Phase = PodRunning ∧
          ∀ c ∈ status.Status.ContainerStatuses, c.Ready = true)) :
    (createPod env namespace_ podName keepAliveSec).pod = none ∧
    (createPod env namespace_ podName keepAliveSec).err = some (errors_New "cancelled") ∧
    (createPod env namespace_ podName keepAliveSec).trace.clock ≤ timeout + pollInterval ∧
    timeout + pollInterval = 33 := by
  have hcp : createPod env namespace_ podName keepAliveSec =
      pollLoop env.parentDone (env.get namespace_ pod.Name)
        { clock := 0, fetches := 0, logged := [] } := by
    simp only [createPod, hcreate]
  have h := pollLoop_never_ready env.parentDone (env.get namespace_ pod.Name)
    (fun i => notReadyOutcome_of_error_or_not_ready _ (hnever i))
    { clock := 0, fetches := 0, logged := [] }
  rw [hcp]
  exact ⟨h.1, h.2, pollLoop_clock_le env.parentDone _ _ (Nat.zero_le _), rfl⟩

/-- Witness of C3: the stuck cluster never reports the pod ready. -/
theorem createPod_never_ready_cancelled_witness :
    (createPod stuckCluster "default" "worker-0" 60).pod = none ∧
    (createPod stuckCluster "default" "worker-0" 60).err = some (errors_New "cancelled") ∧
    (createPod stuckCluster "default" "worker-0" 60).trace.clock ≤ timeout + pollInterval ∧
    timeout + pollInterval = 33 :=
  createPod_never_ready_cancelled stuckCluster "default" "worker-0" 60
    (getPodObject "default" "worker-0" 60) rfl
    (by
      intro i
      right
      exact ⟨pendingPod, rfl, by simp [pendingPod, PodRunning]⟩)

/-- C4, counterexample. On the stuck cluster the create call succeeds, yet
createPod does not return the created descriptor with a nil error and without
fetching: it issues ten Get calls, waits 30 seconds and returns a nil pod with
the error "cancelled". -/
theorem createPod_returns_at_once_counterexample :
    stuckCluster.create "default" (getPodObject "default" "worker-0" 60) =
        .ok (getPodObject "default" "worker-0" 60) ∧
    createPod stuckCluster "default" "worker-0" 60 =
      { pod := none, err := some (errors_New "cancelled")
        trace := { clock := 30, fetches := 10, logged := [] } } ∧
    ¬ ((createPod stuckCluster "default" "worker-0" 60).pod =
          some (getPodObject "default" "worker-0" 60) ∧
        (createPod stuckCluster "default" "worker-0" 60).err = none ∧
        (createPod stuckCluster "default" "worker-0" 60).trace.fetches = 0) := by
  have hrun : createPod stuckCluster "default" "worker-0" 60 =
      { pod := none, err := some (errors_New "cancelled")
        trace := { clock := 30, fetches := 10, logged := [] } } := by
    simp [createPod, stuckCluster, pollLoop, onlineCtxDone, timeout, pollInterval,
      readyCheck, pendingPod, PodRunning]
  refine ⟨rfl, hrun, ?_⟩
  rw [hrun]
  simp

/-- C4, amended. createPod does not return at once after a successful create
call. It returns without any fetch in two cases only: the create call fails, and
then it returns a nil pod and the error of the create call; or the create call
succeeds while the context is already done when the poll begins, and then it
returns a nil pod and the error "cancelled". In every other case it fetches the
status of the pod at least once, and it returns either a nil pod with the error
"cancelled", the context being done, or the status of its last fetch with a nil
error, that status being Running with every container ready. -/
theorem createPod_polls_after_create (env : ClusterEnv) (namespace_ podName : String)
    (keepAliveSec : Int) :
    (∀ err, env.create namespace_ (getPodObject namespace_ podName keepAliveSec) = .error err →
      createPod env namespace_ podName keepAliveSec =
        { pod := none, err := some err
          trace := { clock := 0, fetches := 0, logged := [] } }) ∧
    (∀ pod, env.create namespace_ (getPodObject namespace_ podName keepAliveSec) = .ok pod →
      (onlineCtxDone env.parentDone 0 = false →
        1 ≤ (createPod env namespace_ podName keepAliveSec).trace.fetches) ∧
      ((createPod env namespace_ podName keepAliveSec).trace.fetches = 0 ↔
        onlineCtxDone env.parentDone 0 = true) ∧
      (onlineCtxDone env.parentDone 0 = true →
        createPod env namespace_ podName keepAliveSec =
          { pod := none, err := some (errors_New "cancelled")
            trace := { clock := 0, fetches := 0, logged := [] } }) ∧
      (((createPod env namespace_ podName keepAliveSec).pod = none ∧
          (createPod env namespace_ podName keepAliveSec).err =
            some (errors_New "cancelled") ∧
          onlineCtxDone env.parentDone
            (createPod env namespace_ podName keepAliveSec).trace.clock = true) ∨
        ∃ status, (createPod env namespace_ podName keepAliveSec).pod = some status ∧
          (createPod env namespace_ podName keepAliveSec).err = none ∧
          env.get namespace_ pod.Name
            ((createPod env namespace_ podName keepAliveSec).trace.fetches - 1) =
              .ok status ∧
          status.Status.Phase = PodRunning ∧
          ∀ c ∈ status.Status.ContainerStatuses, c.Ready = true)) ∧
    ((createPod env namespace_ podName keepAliveSec).trace.fetches = 0 ↔
      ((∃ err, env.create namespace_ (getPodObject namespace_ podName keepAliveSec) =
          .error err) ∨
        onlineCtxDone env.parentDone 0 = true)) := by
  have hfirst : ∀ pod,
      env.create namespace_ (getPodObject namespace_ podName keepAliveSec) = .ok pod →
      onlineCtxDone env.parentDone 0 = false →
      1 ≤ (createPod env namespace_ podName keepAliveSec).trace.fetches := by
    intro pod hcreate hd
    have hcp : createPod env namespace_ podName keepAliveSec =
        pollLoop env.parentDone (env.get namespace_ pod.Name)
          { clock := 0, fetches := 0, logged := [] } := by
      simp only [createPod, hcreate]
    rw [hcp]
    cases hn : notReadyOutcome (env.get namespace_ pod.Name 0) with
    | true =>
      obtain ⟨logged, hEq⟩ := pollLoop_notReady env.parentDone
        (env.get namespace_ pod.Name) { clock := 0, fetches := 0, logged := [] } hd hn
      rw [hEq]
      have := pollLoop_fetches_le env.parentDone (env.get namespace_ pod.Name)
        { clock := 0 + pollInterval, fetches := 0 + 1, logged := logged }
      simp only at this ⊢
      omega
    | false =>
      cases hfe : env.get namespace_ pod.Name 0 with
      | err e => rw [hfe] at hn; simp [notReadyOutcome] at hn
      | ok status =>
        rw [hfe] at hn
        simp only [notReadyOutcome, Bool.not_eq_false'] at hn
        rw [pollLoop_ready env.parentDone _ _ status hd hfe hn]
  have hdone : ∀ pod,
      env.create namespace_ (getPodObject namespace_ podName keepAliveSec) = .ok pod →
      onlineCtxDone env.parentDone 0 = true →
      createPod env namespace_ podName keepAliveSec =
        { pod := none, err := some (errors_New "cancelled")
          trace := { clock := 0, fetches := 0, logged := [] } } := by
    intro pod hcreate hd
    simp only [createPod, hcreate]
    exact pollLoop_done env.parentDone _ { clock := 0, fetches := 0, logged := [] } hd
  have hzero : ∀ pod,
      env.create namespace_ (getPodObject namespace_ podName keepAliveSec) = .ok pod →
      ((createPod env namespace_ podName keepAliveSec).trace.fetches = 0 ↔
        onlineCtxDone env.parentDone 0 = true) := by
    intro pod hcreate
    constructor
    · intro h0
      cases hd : onlineCtxDone env.parentDone 0 with
      | true => rfl
      | false =>
        have := hfirst pod hcreate hd
        omega
    · intro hd
      rw [hdone pod hcreate hd]
  refine ⟨?_, ?_, ?_⟩
  · intro err hcreate
    simp only [createPod, hcreate]
  · intro pod hcreate
    refine ⟨hfirst pod hcreate, hzero pod hcreate, hdone pod hcreate, ?_⟩
    have hcp : createPod env namespace_ podName keepAliveSec =
        pollLoop env.parentDone (env.get namespace_ pod.Name)
          { clock := 0, fetches := 0, logged := [] } := by
      simp only [createPod, hcreate]
    rw [hcp]
    rcases pollLoop_result env.parentDone (env.get namespace_ pod.Name)
      { clock := 0, fetches := 0, logged := [] } with h | ⟨status, h1, h2, _, h4, h5⟩
    · exact Or.inl h
    · exact Or.inr ⟨status, h1, h2, h4, (readyCheck_iff status).1 h5⟩
  · cases hcreate : env.create namespace_ (getPodObject namespace_ podName keepAliveSec) with
    | error err =>
      constructor
      · intro _
        exact Or.inl ⟨err, rfl⟩
      · intro _
        simp only [createPod, hcreate]
    | ok pod =>
      rw [hzero pod hcreate]
      constructor
      · intro h
        exact Or.inr h
      · rintro (⟨err, herr⟩ | h)
        · cases herr
        · exact h

/-- Witness of C4, amended: the rejecting cluster makes createPod return the
create error without a fetch; on the cluster whose context is already done
createPod returns "cancelled" without a fetch; on the flaky cluster the create
call succeeds and createPod fetches at least once before it returns. -/
theorem createPod_polls_after_create_witness :
    createPod rejectingCluster "default" "worker-0" 60 =
      { pod := none, err := some (GoError.transport "pods is forbidden")
        trace := { clock := 0, fetches := 0, logged := [] } } ∧
    createPod cancelledCluster "default" "worker-0" 60 =
      { pod := none, err := some (errors_New "cancelled")
        trace := { clock := 0, fetches := 0, logged := [] } } ∧
    1 ≤ (createPod flakyCluster "default" "worker-0" 60).trace.fetches :=
  ⟨(createPod_polls_after_create rejectingCluster "default" "worker-0" 60).1 _ rfl,
    ((createPod_polls_after_create cancelledCluster "default" "worker-0" 60).2.1
      (getPodObject "default" "worker-0" 60) rfl).2.2.1 rfl,
    ((createPod_polls_after_create flakyCluster "default" "worker-0" 60).2.1
      (getPodObject "default" "worker-0" 60) rfl).1 rfl⟩

end Kubeutils

namespace Kubeutils

/-! ## checkClusterConnection -/

/-- C5. checkClusterConnection returns (true, nil) if and only if the health
request completes without an error and its payload is exactly "ok"; in every
other case it returns false with a non-nil error; and when the request fails,
the message of the returned error ends with the message of the underlying
error. -/
theorem checkClusterConnection_ok_iff (doRaw : String → Except GoError String) :
    (checkClusterConnection doRaw = (true, none) ↔ doRaw "/healthz" = .ok "ok") ∧
    (doRaw "/healthz" ≠ .ok "ok" →
      (checkClusterConnection doRaw).1 = false ∧ (checkClusterConnection doRaw).2 ≠ none) ∧
    (∀ e, doRaw "/healthz" = .error e →
      ∃ err, checkClusterConnection doRaw = (false, some err) ∧
        ∃ lead, err.Error = lead ++ e.Error) := by
  cases h : doRaw "/healthz" with
  | error e =>
    have hr : checkClusterConnection doRaw =
        (false, some (errors_New ("failed to connect to cluster. Reason: " ++ e.Error))) := by
      simp only [checkClusterConnection, h]
    rw [hr]
    refine ⟨by simp, by simp, ?_⟩
    intro e2 he
    cases he
    exact ⟨_, rfl, "failed to connect to cluster. Reason: ", rfl⟩
  | ok content =>
    by_cases hc : content = "ok"
    · have hr : checkClusterConnection doRaw = (true, none) := by
        simp [checkClusterConnection, h, hc]
      rw [hr]
      simp [hc]
    · have hr : checkClusterConnection doRaw =
          (false, some (errors_New "cluster not healthy")) := by
        simp [checkClusterConnection, h, hc]
      rw [hr]
      simp [hc]

/-- Witness of C5: an unreachable health endpoint. -/
theorem checkClusterConnection_ok_iff_witness :
    ((checkClusterConnection unreachableHealth).1 = false ∧
      (checkClusterConnection unreachableHealth).2 ≠ none) ∧
    ∃ err, checkClusterConnection unreachableHealth = (false, some err) ∧
      ∃ lead, err.Error =
        lead ++ "dial tcp 10.0.0.1:6443: connect: connection refused" := by
  have h := checkClusterConnection_ok_iff unreachableHealth
  exact ⟨h.2.1 (by simp [unreachableHealth]), h.2.2 _ rfl⟩

/-! ## executeRemoteCommand -/

/-- When streaming fails, the returned error wraps the underlying error and its
message carries the command, the namespace and the name of the pod. -/
theorem executeRemoteCommand_stream_error (env : ExecEnv) (pod : Pod) (command : String)
    (out errOut : String) (e : GoError)
    (hexec : env.newSPDYExecutor "POST" (execRequest pod command).URL = none)
    (hstream : env.stream "POST" (execRequest pod command).URL execStreamOptions =
      (out, errOut, some e)) :
    ∃ err, executeRemoteCommand env pod command = ("", "", some err) ∧
      err.Unwrap = some e ∧
      err.Error = e.Error ++ " failed executing command " ++ command ++ " on " ++
        pod.Namespace ++ "/" ++ pod.Name := by
  refine ⟨execFailure e command pod, ?_, rfl, rfl⟩
  simp only [executeRemoteCommand, hexec, hstream]

/-- When the executor cannot be constructed, the underlying error comes back as
it is. -/
theorem executeRemoteCommand_executor_error (env : ExecEnv) (pod : Pod) (command : String)
    (e : GoError)
    (hexec : env.newSPDYExecutor "POST" (execRequest pod command).URL = some e) :
    executeRemoteCommand env pod command = ("", "", some e) := by
  simp only [executeRemoteCommand, hexec]

/-- C6, the code at the failing input. With an executor that cannot be
constructed, executeRemoteCommand returns the transport error untouched: it
wraps nothing and its message names neither the command nor the pod. On the
sibling path, a stream that breaks for the same command and pod, the error is
wrapped and its message names the command and the pod. -/
theorem executeRemoteCommand_executor_error_bare :
    executeRemoteCommand brokenExecutor readyPod "echo ok" =
      ("", "", some (GoError.transport "tls: failed to find any PEM data")) ∧
    (GoError.transport "tls: failed to find any PEM data").Unwrap = none ∧
    (GoError.transport "tls: failed to find any PEM data").Error =
      "tls: failed to find any PEM data" ∧
    executeRemoteCommand brokenStream readyPod "echo ok" =
      ("", "", some (GoError.wrapError
        "unable to upgrade connection failed executing command echo ok on default/worker-0"
        (GoError.transport "unable to upgrade connection"))) := by
  refine ⟨rfl, rfl, rfl, ?_⟩
  simp [executeRemoteCommand, brokenStream, execFailure, GoError.Error, Pod.Namespace,
    Pod.Name, readyPod, getPodObject]

/-! ## getPodObject and the exec request -/

theorem digitValue_digitChar (d : Nat) (h : d < 10) :
    digitValue (Nat.digitChar d) = some d ∧ Nat.digitChar d ≠ '-' ∧
      (Nat.digitChar d = '0' → d = 0) := by
  interval_cases d <;> refine ⟨by rfl, by decide, by decide⟩

theorem readDigits_append (L M : List Char) :
    ∀ acc, readDigits acc (L ++ M) = (readDigits acc L).bind (fun v => readDigits v M) := by
  induction L with
  | nil => intro acc; rfl
  | cons c cs ih =>
    intro acc
    simp only [List.cons_append, readDigits]
    cases digitValue c with
    | none => rfl
    | some d => exact ih _

/-- The digits the decimal conversion puts in front of its accumulator read
back as the number converted, start with no minus sign and with no zero unless
the number is zero. -/
theorem toDigitsCore_reads (fuel : Nat) :
    ∀ n ds, n < fuel →
      ∃ c rest, Nat.toDigitsCore 10 fuel n ds = (c :: rest) ++ ds ∧
        readDigits 0 (c :: rest) = some n ∧ c ≠ '-' ∧ (c = '0' → n = 0 ∧ rest = []) := by
  induction fuel with
  | zero => intro n ds h; omega
  | succ fuel ih =>
    intro n ds h
    have hd := digitValue_digitChar (n % 10) (Nat.mod_lt _ (by decide))
    by_cases hq : n / 10 = 0
    · have hn : n % 10 = n := by omega
      refine ⟨Nat.digitChar (n % 10), [], ?_, ?_, hd.2.1, ?_⟩
      · simp [Nat.toDigitsCore, hq]
      · simp only [readDigits, hd.1, Nat.zero_mul, Nat.zero_add]
        rw [hn]
      · intro h0
        exact ⟨by have := hd.2.2 h0; omega, rfl⟩
    · obtain ⟨c, rest, hEq, hread, hc, hz⟩ :=
        ih (n / 10) (Nat.digitChar (n % 10) :: ds) (by omega)
      refine ⟨c, rest ++ [Nat.digitChar (n % 10)], ?_, ?_, hc, ?_⟩
      · simp [Nat.toDigitsCore, hq, hEq]
      · have := readDigits_append (c :: rest) [Nat.digitChar (n % 10)] 0
        rw [List.cons_append] at this
        rw [this, hread]
        simp only [Option.some_bind, readDigits, hd.1]
        congr 1
        omega
      · intro h0
        exact absurd (hz h0).1 hq

theorem readNat_repr (n : Nat) :
    ∃ c rest, (Nat.repr n).data = c :: rest ∧ c ≠ '-' ∧ readNat (c :: rest) = some n := by
  obtain ⟨c, rest, hEq, hread, hc, hz⟩ := toDigitsCore_reads (n + 1) n [] (Nat.lt_succ_self n)
  refine ⟨c, rest, ?_, hc, ?_⟩
  · simp [Nat.repr, Nat.toDigits, hEq, List.asString]
  · simp only [readNat]
    split_ifs with h0
    · exact absurd (hz h0.1).2 h0.2
    · exact hread

/-- The string strconv_Itoa gives for an integer is the decimal string of that
integer. -/
theorem readDecimal_Itoa (i : Int) : readDecimal (strconv_Itoa i) = some i := by
  unfold strconv_Itoa
  split_ifs with hneg
  · obtain ⟨c, rest, hdata, _, hread⟩ := readNat_repr i.natAbs
    have : ("-" ++ Nat.repr i.natAbs).data = '-' :: (c :: rest) := by
      rw [String.data_append, hdata]; rfl
    simp only [readDecimal, this, hread, if_true]
    have hne : i.natAbs ≠ 0 := by omega
    simp only [hne, if_false, Option.some.injEq]
    omega
  · obtain ⟨c, rest, hdata, hc, hread⟩ := readNat_repr i.toNat
    simp only [readDecimal, hdata, hc, if_false, hread, Option.map_some', Option.some.injEq]
    exact Int.toNat_of_nonneg (by omega)

/-- C7. The pod built by getPodObject carries the given name and namespace, has
restart policy Never, and has exactly one container, whose command is a list of
two elements: "sleep" and the decimal string of keepAliveSec, that is, the one
string that reads in decimal as keepAliveSec, which is what strconv.Itoa gives.
For a keep-alive of 60 seconds the command is sleep 60. -/
theorem getPodObject_spec (namespace_ podName : String) (keepAliveSec : Int) :
    (getPodObject namespace_ podName keepAliveSec).Name = podName ∧
    (getPodObject namespace_ podName keepAliveSec).Namespace = namespace_ ∧
    (getPodObject namespace_ podName keepAliveSec).Spec.RestartPolicy = RestartPolicyNever ∧
    RestartPolicyNever = "Never" ∧
    (getPodObject namespace_ podName keepAliveSec).Spec.Containers.length = 1 ∧
    (∃ c, (getPodObject namespace_ podName keepAliveSec).Spec.Containers = [c] ∧
      c.Command = ["sleep", strconv_Itoa keepAliveSec] ∧
      c.Command.length = 2 ∧
      ∃ seconds, c.Command = ["sleep", seconds] ∧
        readDecimal seconds = some keepAliveSec) ∧
    (getPodObject namespace_ podName 60).Spec.Containers.map (fun c => c.Command) =
      [["sleep", "60"]] :=
  ⟨rfl, rfl, rfl, rfl, rfl,
    ⟨_, rfl, rfl, rfl, strconv_Itoa keepAliveSec, rfl, readDecimal_Itoa keepAliveSec⟩,
    by
      show [["sleep", strconv_Itoa 60]] = [["sleep", "60"]]
      decide⟩

end Kubeutils

namespace Tui

/-! ## The review-setup handler -/

/-- C10. For a key message, handleConfirmationUpdate calls setupPods if and only
if the key is "ctrl+p", or the key is "c" and the configuration is confirmed.
When the key is one of these, whatever setupPods is, the handler returns the
model that setupPods makes of the current model, together with the tick of the
preparation spinner. Otherwise, and for every message that is not a key
message, what the handler returns does not depend on setupPods at all. So "c"
never starts pod setup before confirmation, "ctrl+p" starts it regardless of
confirmation, and what the handler returns depends on setupPods exactly for
those keys. -/
theorem handleConfirmationUpdate_setupPods_iff {V F : Type} (w : Widgets V F)
    (m : ConfiguratorModel V F) (key : String) :
    ((key = "ctrl+p" ∨ (key = "c" ∧ m.setupConfirmation.isConfirmed = true)) →
      ∀ setupPods : ConfiguratorModel V F → ConfiguratorModel V F,
        (handleConfirmationUpdate { w with setupPods := setupPods } m (.KeyMsg key)).model =
          setupPods m ∧
        (handleConfirmationUpdate { w with setupPods := setupPods } m (.KeyMsg key)).cmd =
          Cmd.preparationSpinnerTick) ∧
    (¬ (key = "ctrl+p" ∨ (key = "c" ∧ m.setupConfirmation.isConfirmed = true)) →
      ∀ setupPods : ConfiguratorModel V F → ConfiguratorModel V F,
        handleConfirmationUpdate { w with setupPods := setupPods } m (.KeyMsg key) =
          handleConfirmationUpdate w m (.KeyMsg key)) ∧
    ((∃ setupPods : ConfiguratorModel V F → ConfiguratorModel V F,
        handleConfirmationUpdate { w with setupPods := setupPods } m (.KeyMsg key) ≠
          handleConfirmationUpdate w m (.KeyMsg key)) ↔
      (key = "ctrl+p" ∨ (key = "c" ∧ m.setupConfirmation.isConfirmed = true))) ∧
    (m.setupConfirmation.isConfirmed = false →
      ∀ setupPods : ConfiguratorModel V F → ConfiguratorModel V F,
        handleConfirmationUpdate { w with setupPods := setupPods } m (.KeyMsg "c") =
          handleConfirmationUpdate w m (.KeyMsg "c")) ∧
    ((handleConfirmationUpdate w m (.KeyMsg "ctrl+p")).model = w.setupPods m) ∧
    (∀ (tag : Nat) (setupPods : ConfiguratorModel V F → ConfiguratorModel V F),
      handleConfirmationUpdate { w with setupPods := setupPods } m (.other tag) =
        handleConfirmationUpdate w m (.other tag)) := by
  have hcall : ∀ k : String,
      (k = "ctrl+p" ∨ (k = "c" ∧ m.setupConfirmation.isConfirmed = true)) →
      ∀ w2 : Widgets V F,
        handleConfirmationUpdate w2 m (.KeyMsg k) =
          { model := w2.setupPods m, cmd := Cmd.preparationSpinnerTick } := by
    intro k hk w2
    rcases hk with hk | ⟨hk, hc⟩
    · subst hk
      simp [handleConfirmationUpdate]
    · subst hk
      simp [handleConfirmationUpdate, hc]
  have htail : ∀ (setupPods : ConfiguratorModel V F → ConfiguratorModel V F)
      (m2 : ConfiguratorModel V F) (msg : Msg),
      confirmationTail { w with setupPods := setupPods } m2 msg = confirmationTail w m2 msg := by
    intro setupPods m2 msg
    rfl
  have hskip : ∀ k : String,
      ¬ (k = "ctrl+p" ∨ (k = "c" ∧ m.setupConfirmation.isConfirmed = true)) →
      ∀ setupPods : ConfiguratorModel V F → ConfiguratorModel V F,
        handleConfirmationUpdate { w with setupPods := setupPods } m (.KeyMsg k) =
          handleConfirmationUpdate w m (.KeyMsg k) := by
    intro k hk setupPods
    simp only [not_or, not_and] at hk
    obtain ⟨h3, h4⟩ := hk
    unfold handleConfirmationUpdate
    simp only [h3, if_false]
    by_cases h1 : k = "ctrl+c"
    · simp [h1]
    · by_cases h2 : k = "b"
      · simp [h1, h2, htail]
      · by_cases hc : k = "c"
        · have hconf := h4 hc
          simp [h1, h2, hc, hconf, htail]
        · simp [h1, h2, hc, htail]
  refine ⟨?_, hskip key, ?_, ?_, ?_, ?_⟩
  · intro hk setupPods
    rw [hcall key hk]
    exact ⟨rfl, rfl⟩
  · constructor
    · rintro ⟨setupPods, hne⟩
      by_contra hk
      exact hne (hskip key hk setupPods)
    · intro hk
      refine ⟨fun m2 =>
        { w.setupPods m2 with
          currentView :=
            if (w.setupPods m2).currentView = AppViewState.Config then AppViewState.Run
            else AppViewState.Config }, ?_⟩
      rw [hcall key hk, hcall key hk w]
      intro heq
      have hview := congrArg (fun r => r.model.currentView) heq
      simp only at hview
      split_ifs at hview with h0
      · rw [h0] at hview; cases hview
      · exact h0 hview.symm
  · intro hconf setupPods
    exact hskip "c" (by simp [hconf]) setupPods
  · rw [hcall "ctrl+p" (Or.inl rfl) w]
  · intro tag setupPods
    simp only [handleConfirmationUpdate, htail]

/-- Witness of C10: on the sample review screen, "c" after confirmation and
"ctrl+p" without it both hand the model to setupPods, which moves to the
preparation view; "c" before confirmation leaves the review view. -/
theorem handleConfirmationUpdate_setupPods_iff_witness :
    (handleConfirmationUpdate sampleWidgets (reviewScreen true) (.KeyMsg "c")).model.currentView =
      AppViewState.PreparePods ∧
    (handleConfirmationUpdate sampleWidgets (reviewScreen false)
      (.KeyMsg "ctrl+p")).model.currentView = AppViewState.PreparePods ∧
    (handleConfirmationUpdate sampleWidgets (reviewScreen false) (.KeyMsg "c")).model.currentView =
      AppViewState.ReviewSetup := by
  have h1 := (handleConfirmationUpdate_setupPods_iff sampleWidgets (reviewScreen true) "c").1
    (Or.inr ⟨rfl, rfl⟩) sampleWidgets.setupPods
  have h2 := (handleConfirmationUpdate_setupPods_iff sampleWidgets (reviewScreen false)
    "ctrl+p").1 (Or.inl rfl) sampleWidgets.setupPods
  have h3 := (handleConfirmationUpdate_setupPods_iff sampleWidgets (reviewScreen false)
    "c").2.2.2.1 rfl (fun m2 => m2)
  refine ⟨?_, ?_, ?_⟩
  · have := congrArg (fun m2 => m2.currentView) h1.1
    exact this
  · have := congrArg (fun m2 => m2.currentView) h2.1
    exact this
  · have := congrArg (fun r => r.model.currentView) h3
    simp only at this
    rw [← this]
    simp [handleConfirmationUpdate, confirmationTail, reviewScreen, sampleWidgets]

/-! ## The run state machine -/

/-- C9. In every state the run reaches by attempted transitions, the Run State
enters InProgress only from StartConfirm and Cancelled only from CancelConfirm;
an attempt to go from InProgress straight to Cancelled is rejected and leaves
the model, its Run State included, as it was. -/
theorem runState_confirmation_edges (resetFrom collectFrom : TestRunState → Bool)
    (init : TestRunModel) (attempts : List TestRunState) (target : TestRunState) :
    ((attemptTransition resetFrom collectFrom
          (runAttempts resetFrom collectFrom init attempts) target).runState = .InProgress →
      (runAttempts resetFrom collectFrom init attempts).runState ≠ .InProgress →
      (runAttempts resetFrom collectFrom init attempts).runState = .StartConfirm) ∧
    ((attemptTransition resetFrom collectFrom
          (runAttempts resetFrom collectFrom init attempts) target).runState = .Cancelled →
      (runAttempts resetFrom collectFrom init attempts).runState ≠ .Cancelled →
      (runAttempts resetFrom collectFrom init attempts).runState = .CancelConfirm) ∧
    ((runAttempts resetFrom collectFrom init attempts).runState = .InProgress →
      attemptTransition resetFrom collectFrom
          (runAttempts resetFrom collectFrom init attempts) .Cancelled =
        runAttempts resetFrom collectFrom init attempts) := by
  generalize runAttempts resetFrom collectFrom init attempts = m
  refine ⟨?_, ?_, ?_⟩
  · intro h hne
    unfold attemptTransition at h
    split at h
    · rename_i hedge
      simp only at h
      subst h
      cases hs : m.runState <;> simp_all [definedEdge]
    · exact absurd h hne
  · intro h hne
    unfold attemptTransition at h
    split at h
    · rename_i hedge
      simp only at h
      subst h
      cases hs : m.runState <;> simp_all [definedEdge]
    · exact absurd h hne
  · intro h
    simp [attemptTransition, h, definedEdge]

/-- Witness of C9: a fresh run asked to start and confirmed is InProgress; asked
to go straight to Cancelled it stays as it is; InProgress was entered from
StartConfirm, and after a cancel request Cancelled is entered from
CancelConfirm. -/
theorem runState_confirmation_edges_witness :
    (runAttempts (fun _ => false) (fun _ => false) freshRun
        [.StartConfirm, .InProgress]).runState = .InProgress ∧
    attemptTransition (fun _ => false) (fun _ => false)
        (runAttempts (fun _ => false) (fun _ => false) freshRun
          [.StartConfirm, .InProgress]) .Cancelled =
      runAttempts (fun _ => false) (fun _ => false) freshRun [.StartConfirm, .InProgress] ∧
    (runAttempts (fun _ => false) (fun _ => false) freshRun [.StartConfirm]).runState =
      .StartConfirm ∧
    (runAttempts (fun _ => false) (fun _ => false) freshRun
        [.StartConfirm, .InProgress, .CancelConfirm]).runState = .CancelConfirm :=
  ⟨by decide,
    (runState_confirmation_edges (fun _ => false) (fun _ => false) freshRun
      [.StartConfirm, .InProgress] .Cancelled).2.2 (by decide),
    (runState_confirmation_edges (fun _ => false) (fun _ => false) freshRun
      [.StartConfirm] .InProgress).1 (by decide) (by decide),
    (runState_confirmation_edges (fun _ => false) (fun _ => false) freshRun
      [.StartConfirm, .InProgress, .CancelConfirm] .Cancelled).2.1 (by decide) (by decide)⟩

end Tui
